import Mathlib

/- Verification development for the workflow-agent orchestration core.

Shallow embedding of `src/workflow_agent.py` (class `WorkflowAgent` and the
LangGraph wiring in `create_workflow_graph` / `run_workflow`) together with
the enhancement pieces it shares with `src/enhanced_analyzer.py`.

Modelling conventions:
- External effects (LLM calls, screenshot capture, blocking human input, the
  system clock) are modelled as explicit oracle inputs to the node functions;
  a fallible LLM call is an `Option`-shaped input where `none` is the
  exception path of the corresponding `try/except`.
- Python float literals (0.0, 0.4, 0.5, 0.7, 0.9, 1.0) are modelled as exact
  rationals; the code only assigns and compares these literals, it never does
  float arithmetic on them.
- The module-level `workflow_control` dict is the `Control` structure; the
  keyboard listener is the only writer and can only set flags to `True`.
- File writes (`save_workflow_data`, the `workflow_enhanced.json` write) are
  modelled as data returned by the node functions and accumulated in the
  system trace. -/

namespace WorkflowAgentModel

/- Exact rational values of the float literals in the source, written with
the raw `Rat` constructor (already in lowest terms) so that equality of
scores reduces by `decide`. -/

def q0_4 : ℚ := ⟨2, 5, by decide, by decide⟩

def q0_5 : ℚ := ⟨1, 2, by decide, by decide⟩

def q0_7 : ℚ := ⟨7, 10, by decide, by decide⟩

def q0_9 : ℚ := ⟨9, 10, by decide, by decide⟩

/-- Sanity check: the raw-constructor rationals denote the source's float
literals 0.4, 0.5, 0.7, 0.9. -/
theorem q_values : q0_4 = 0.4 ∧ q0_5 = 0.5 ∧ q0_7 = 0.7 ∧ q0_9 = 0.9 := by
  refine ⟨?_, ?_, ?_, ?_⟩
  · rw [show q0_4 = (2:ℚ)/5 by
      rw [q0_4, Rat.mk'_eq_divInt, Rat.divInt_eq_div]; norm_num]
    norm_num
  · rw [show q0_5 = (1:ℚ)/2 by
      rw [q0_5, Rat.mk'_eq_divInt, Rat.divInt_eq_div]; norm_num]
    norm_num
  · rw [show q0_7 = (7:ℚ)/10 by
      rw [q0_7, Rat.mk'_eq_divInt, Rat.divInt_eq_div]; norm_num]
    norm_num
  · rw [show q0_9 = (9:ℚ)/10 by
      rw [q0_9, Rat.mk'_eq_divInt, Rat.divInt_eq_div]; norm_num]
    norm_num

/-- `WorkflowStep` (pydantic model in `workflow_agent.py`). -/
structure WorkflowStep where
  step_number : Nat
  action : String
  motivation : String
  ui_elements : List String
  timestamp : String
  screenshot_path : String
  confidence_score : ℚ
deriving DecidableEq, Repr

/-- `WorkflowState` (TypedDict in `workflow_agent.py`). -/
structure WorkflowState where
  session_id : String
  screenshots : List String
  steps : List WorkflowStep
  current_step : Nat
  analysis_complete : Bool
  needs_human_input : Bool
  human_question : String
  continue_workflow : Bool
  phase : String
  enhancement_complete : Bool
deriving DecidableEq, Repr

/-- The module-level `workflow_control` dict of control-signal flags. -/
structure Control where
  transition_to_enhancement : Bool
  stop_workflow : Bool
  force_human_input : Bool
deriving DecidableEq, Repr

/-- Python `str.lower()` on the (ASCII) strings it is applied to, defined by
structural recursion on the character list so it evaluates by `decide`. -/
def str_lower (s : String) : String := ⟨s.data.map Char.toLower⟩

/-- `WorkflowAgent._certainty_to_score`: a dict lookup on the lowercased
certainty level, with `.get` default 0.5. -/
def certainty_to_score (certainty_level : String) : ℚ :=
  let mapping : List (String × ℚ) := [("high", q0_9), ("medium", q0_7), ("low", q0_4)]
  (mapping.lookup (str_lower certainty_level)).getD q0_5

/-- Fields of the first-pass (`basic_analysis`) LLM response used by
`analyze_screenshot` after successful JSON parsing. -/
structure BasicAnalysis where
  action : String
  motivation : String
  ui_elements : List String
  certainty_level : String
deriving DecidableEq, Repr

/-- Fields of the second-pass (`clarification_analysis`) LLM response. -/
structure ClarificationAnalysis where
  needs_clarification : Bool
  clarification_question : String
deriving DecidableEq, Repr

/-- The dict returned by `WorkflowAgent.analyze_screenshot` (the fields the
orchestrator consumes). -/
structure AnalysisResult where
  action : String
  motivation : String
  ui_elements : List String
  confidence_score : ℚ
  needs_clarification : Bool
  clarification_question : String
deriving DecidableEq, Repr

/-- Outcome of the external calls made by one `analyze_screenshot` run:
either the first LLM call (or its JSON parse) raises, or the first succeeds
and the second raises, or both succeed.  `errQ` is the question produced by
the nested LLM call inside `_generate_error_response` (`none` when that call
itself raises). -/
inductive AnalyzeOutcome where
  | fail1 (errQ : Option String)
  | fail2 (basic : BasicAnalysis) (errQ : Option String)
  | ok (basic : BasicAnalysis) (clar : ClarificationAnalysis)
deriving DecidableEq, Repr

/-- `WorkflowAgent._generate_error_response`: both its success and its
fallback branch produce the same fixed fields; only the question text
depends on the nested LLM call. -/
def generate_error_response (errQ : Option String) : AnalysisResult :=
  { action := "ANALYSIS_ERROR_OCCURRED"
    motivation := "Unable to automatically analyze this step"
    ui_elements := []
    confidence_score := 0
    needs_clarification := true
    clarification_question :=
      match errQ with
      | some qtext => qtext
      | none => "Could you describe what action you took in this step and why?" }

/-- The early-return dict built by `analyze_screenshot` when the
`force_human_input` flag is observed set after a successful first pass. -/
def forced_result (basic : BasicAnalysis) : AnalysisResult :=
  { action := basic.action
    motivation := basic.motivation
    ui_elements := basic.ui_elements
    confidence_score := certainty_to_score basic.certainty_level
    needs_clarification := true
    clarification_question :=
      "[Manual trigger] Can you provide more context about this step: " ++
        basic.action ++ "? What was your specific motivation?" }

/-- `WorkflowAgent.analyze_screenshot`.  Returns the analysis dict together
with the value of the `force_human_input` flag after the run: the flag is
tested (and reset) only after the first LLM call succeeds; the exception
path never touches it. -/
def analyze_screenshot (force_human_input : Bool) (oc : AnalyzeOutcome) :
    AnalysisResult × Bool :=
  match oc with
  | .fail1 errQ => (generate_error_response errQ, force_human_input)
  | .fail2 basic errQ =>
      if force_human_input then (forced_result basic, false)
      else (generate_error_response errQ, force_human_input)
  | .ok basic clar =>
      if force_human_input then (forced_result basic, false)
      else
        ({ action := basic.action
           motivation := basic.motivation
           ui_elements := basic.ui_elements
           confidence_score := certainty_to_score basic.certainty_level
           needs_clarification := clar.needs_clarification
           clarification_question := clar.clarification_question }, false)

/-- `WorkflowAgent.capture_workflow_node`.  The second component is the
number of time units spent in `await asyncio.sleep(10)`; the control-signal
store is passed in to record that the suspension does not consult it. -/
def capture_workflow_node (st : WorkflowState) (_ctl : Control)
    (screenshot_path : String) : WorkflowState × Nat :=
  if !st.continue_workflow then (st, 0)
  else
    ({ st with
        screenshots := st.screenshots ++ [screenshot_path]
        current_step := st.current_step + 1 },
      if st.current_step > 0 then 10 else 0)

/-- `WorkflowAgent.analyze_workflow_node`.  Returns the updated state and
the `force_human_input` flag after the embedded `analyze_screenshot` call. -/
def analyze_workflow_node (st : WorkflowState) (force_human_input : Bool)
    (oc : AnalyzeOutcome) (timestamp : String) : WorkflowState × Bool :=
  match st.screenshots.getLast? with
  | none => (st, force_human_input)
  | some latest_screenshot =>
    let r := analyze_screenshot force_human_input oc
    let analysis := r.1
    let step : WorkflowStep :=
      { step_number := st.current_step
        action := analysis.action
        motivation := analysis.motivation
        ui_elements := analysis.ui_elements
        timestamp := timestamp
        screenshot_path := latest_screenshot
        confidence_score := analysis.confidence_score }
    if analysis.needs_clarification then
      ({ st with needs_human_input := true
                 human_question := analysis.clarification_question }, r.2)
    else
      ({ st with steps := st.steps ++ [step]
                 needs_human_input := false }, r.2)

/-- The fields of the `enhanced_analysis` LLM response consumed by
`human_input_node` on the success path, each `.get`-defaulted. -/
structure IntegrationResponse where
  action : Option String
  motivation : Option String
  ui_elements : Option (List String)
deriving DecidableEq, Repr

/-- Outcome of the integration LLM call in `human_input_node`: success with
the parsed response, or the exception path together with the outcome of the
nested extraction LLM call in `_extract_action_from_human_input`. -/
inductive IntegrationOutcome where
  | ok (resp : IntegrationResponse)
  | fail (extracted : Option String)
deriving DecidableEq, Repr

/-- `WorkflowAgent._extract_action_from_human_input`: returns the LLM's
stripped content, or the fixed fallback when that call raises. -/
def extract_action_from_human_input (_human_input : String)
    (extracted : Option String) : String :=
  match extracted with
  | some content => content
  | none => "USER_PERFORMED_ACTION"

/-- `WorkflowAgent.human_input_node`.  `human_response` is the blocking
`ask_human` answer, collected before any branching. -/
def human_input_node (st : WorkflowState) (human_response : String)
    (integ : IntegrationOutcome) (timestamp : String) : WorkflowState :=
  if !st.needs_human_input then st
  else
    let st' :=
      match st.screenshots.getLast? with
      | none => st
      | some latest_screenshot =>
        match integ with
        | .ok resp =>
          let step : WorkflowStep :=
            { step_number := st.current_step
              action := resp.action.getD "USER_PROVIDED_ACTION"
              motivation := resp.motivation.getD human_response
              ui_elements := resp.ui_elements.getD []
              timestamp := timestamp
              screenshot_path := latest_screenshot
              confidence_score := 1 }
          { st with steps := st.steps ++ [step] }
        | .fail extracted =>
          let step : WorkflowStep :=
            { step_number := st.current_step
              action := extract_action_from_human_input human_response extracted
              motivation := human_response
              ui_elements := []
              timestamp := timestamp
              screenshot_path := latest_screenshot
              confidence_score := 1 }
          { st with steps := st.steps ++ [step] }
    { st' with needs_human_input := false, human_question := "" }

/-- `WorkflowAgent.check_continuation_node`.  The third component models the
`save_workflow_data` side effect: `some (session_id, steps)` when the node
persisted the step sequence on this run. -/
def check_continuation_node (st : WorkflowState) (ctl : Control) :
    WorkflowState × Control × Option (String × List WorkflowStep) :=
  if ctl.stop_workflow then
    ({ st with continue_workflow := false, analysis_complete := true },
      ctl, some (st.session_id, st.steps))
  else if ctl.transition_to_enhancement && st.phase == "capture" then
    ({ st with phase := "enhancement"
               continue_workflow := false
               analysis_complete := false },
      { ctl with transition_to_enhancement := false },
      some (st.session_id, st.steps))
  else
    (st, ctl, none)

/-- The `quality_issues` mapping of the completeness-analysis LLM response
(category name to list of findings). -/
structure EnhancementAnalysis where
  quality_issues : List (String × List String)
deriving DecidableEq, Repr

/-- `any(quality_issues.values())` in `enhancement_analysis_node`. -/
def has_quality_issues (a : EnhancementAnalysis) : Bool :=
  a.quality_issues.any (fun p => !p.2.isEmpty)

/-- `WorkflowAgent.enhancement_analysis_node`.  `oc` is the completeness
LLM call: `none` is the exception path. -/
def enhancement_analysis_node (st : WorkflowState)
    (oc : Option EnhancementAnalysis) : WorkflowState :=
  if st.steps.isEmpty then { st with enhancement_complete := true }
  else
    match oc with
    | none => { st with enhancement_complete := true }
    | some analysis =>
      if has_quality_issues analysis then
        { st with needs_human_input := true
                  human_question := "enhancement_refinement" }
      else
        { st with enhancement_complete := true }

/-- The `steps` field of the JSON artifact written by the refinement path:
either the original finalized dumps, or the opaque JSON the enhancement LLM
returned. -/
inductive StepsField where
  | original (steps : List WorkflowStep)
  | enhanced (data : String)
deriving DecidableEq, Repr

/-- The JSON object written to disk by the enhancement path
(`workflow_data` / `enhanced_workflow` in `_enhance_workflow_with_context`). -/
structure WorkflowData where
  session_id : String
  created_at : String
  steps : StepsField
  enhanced_at : Option String
  enhancement_context : Option String
deriving DecidableEq, Repr

/-- `WorkflowAgent._enhance_workflow_with_context`.  `synthesis` is the
enhancement LLM call (`none` raises); `created_at` and `enhanced_at` are the
clock readings.  On the exception path the function returns the plain
`workflow_data` built from the original steps. -/
def enhance_workflow_with_context (st : WorkflowState) (created_at : String)
    (additional_context : String) (synthesis : Option String)
    (enhanced_at : String) : WorkflowData :=
  let workflow_data : WorkflowData :=
    { session_id := st.session_id
      created_at := created_at
      steps := StepsField.original st.steps
      enhanced_at := none
      enhancement_context := none }
  match synthesis with
  | some enhanced_data =>
      { workflow_data with
          steps := StepsField.enhanced enhanced_data
          enhanced_at := some enhanced_at
          enhancement_context := some additional_context }
  | none => workflow_data

/-- Python `str.strip()` (whitespace from both ends), defined structurally
on the character list so it evaluates by `decide`. -/
def py_strip (s : String) : String :=
  ⟨((s.data.dropWhile Char.isWhitespace).reverse.dropWhile
      Char.isWhitespace).reverse⟩

/-- Oracle inputs for one `enhancement_refinement_node` run: the
question-generation LLM call (`none` raises), the raw human answers (one
`input()` per question), the synthesis LLM call and the clock readings. -/
structure RefinementEnv where
  question_gen : Option (List String)
  answers : List String
  synthesis : Option String
  created_at : String
  enhanced_at : String
deriving DecidableEq, Repr

/-- `WorkflowAgent.enhancement_refinement_node`.  The second component is
the file write: `some (filename, data)` when `workflow_enhanced.json` is
written on this run. -/
def enhancement_refinement_node (st : WorkflowState) (env : RefinementEnv) :
    WorkflowState × Option (String × WorkflowData) :=
  if !(st.needs_human_input && st.human_question == "enhancement_refinement") then
    (st, none)
  else
    let written :=
      match env.question_gen with
      | none => none
      | some questions =>
        if questions.isEmpty then none
        else
          let responses :=
            ((env.answers.take questions.length).map py_strip).filter
              (fun r => !r.isEmpty)
          if responses.isEmpty then none
          else
            let combined_context :=
              String.intercalate "\n"
                ((questions.zip responses).map
                  (fun p => "Q: " ++ p.1 ++ "\nA: " ++ p.2))
            some ("workflow_enhanced.json",
              enhance_workflow_with_context st env.created_at combined_context
                env.synthesis env.enhanced_at)
    ({ st with needs_human_input := false, enhancement_complete := true }, written)

/-- The LangGraph nodes of `create_workflow_graph`, plus the `END` vertex. -/
inductive Node where
  | capture
  | analyze
  | human_input
  | check_continuation
  | enhancement_analysis
  | enhancement_refinement
  | terminal
deriving DecidableEq, Repr

/-- The conditional edge out of `analyze`. -/
def analyze_edge (st : WorkflowState) : Node :=
  if st.needs_human_input then Node.human_input else Node.check_continuation

/-- The conditional edge out of `check_continuation`; it re-reads the live
`stop_workflow` flag. -/
def check_continuation_edge (st : WorkflowState) (ctl : Control) : Node :=
  if ctl.stop_workflow || st.analysis_complete then Node.terminal
  else if st.phase == "enhancement" then Node.enhancement_analysis
  else Node.capture

/-- The conditional edge out of `enhancement_analysis`. -/
def enhancement_analysis_edge (st : WorkflowState) : Node :=
  if st.needs_human_input then Node.enhancement_refinement else Node.terminal

/-- A whole-system configuration: the control-flow position, the graph
state, the signal store and the list of persisted artifacts (each a
`save_workflow_data` call, in order). -/
structure Sys where
  node : Node
  st : WorkflowState
  ctl : Control
  saves : List (String × List WorkflowStep)
deriving DecidableEq, Repr

/-- The three hotkey handlers of `_setup_keyboard_listener`: the listener
thread only ever writes `True` into `workflow_control`. -/
inductive ListenerWrite : Control → Control → Prop where
  | transition (c : Control) :
      ListenerWrite c { c with transition_to_enhancement := true }
  | stop (c : Control) :
      ListenerWrite c { c with stop_workflow := true }
  | force (c : Control) :
      ListenerWrite c { c with force_human_input := true }

/-- Small-step semantics of one session: either the listener thread fires a
hotkey, or the node at the current control-flow position runs (consuming its
oracle inputs) and the corresponding graph edge is taken. -/
inductive Step : Sys → Sys → Prop where
  | listener (s : Sys) (ctl' : Control) (h : ListenerWrite s.ctl ctl') :
      Step s { s with ctl := ctl' }
  | run_capture (s : Sys) (path : String) (h : s.node = Node.capture) :
      Step s { s with
        node := Node.analyze
        st := (capture_workflow_node s.st s.ctl path).1 }
  | run_analyze (s : Sys) (oc : AnalyzeOutcome) (ts : String)
      (h : s.node = Node.analyze) :
      Step s { s with
        node := analyze_edge (analyze_workflow_node s.st s.ctl.force_human_input oc ts).1
        st := (analyze_workflow_node s.st s.ctl.force_human_input oc ts).1
        ctl := { s.ctl with
          force_human_input :=
            (analyze_workflow_node s.st s.ctl.force_human_input oc ts).2 } }
  | run_human_input (s : Sys) (resp : String) (integ : IntegrationOutcome)
      (ts : String) (h : s.node = Node.human_input) :
      Step s { s with
        node := Node.check_continuation
        st := human_input_node s.st resp integ ts }
  | run_check (s : Sys) (h : s.node = Node.check_continuation) :
      Step s { s with
        node := check_continuation_edge (check_continuation_node s.st s.ctl).1
          (check_continuation_node s.st s.ctl).2.1
        st := (check_continuation_node s.st s.ctl).1
        ctl := (check_continuation_node s.st s.ctl).2.1
        saves := s.saves ++ (check_continuation_node s.st s.ctl).2.2.toList }
  | run_enh_analysis (s : Sys) (oc : Option EnhancementAnalysis)
      (h : s.node = Node.enhancement_analysis) :
      Step s { s with
        node := enhancement_analysis_edge (enhancement_analysis_node s.st oc)
        st := enhancement_analysis_node s.st oc }
  | run_enh_refinement (s : Sys) (env : RefinementEnv)
      (h : s.node = Node.enhancement_refinement) :
      Step s { s with
        node := Node.terminal
        st := (enhancement_refinement_node s.st env).1 }

/-- The `initial_state` dict built in `run_workflow`. -/
def initial_state (session_id : String) : WorkflowState :=
  { session_id := session_id
    screenshots := []
    steps := []
    current_step := 0
    analysis_complete := false
    needs_human_input := false
    human_question := ""
    continue_workflow := true
    phase := "capture"
    enhancement_complete := false }

/-- The module-level initial value of `workflow_control`. -/
def Control.init : Control :=
  { transition_to_enhancement := false
    stop_workflow := false
    force_human_input := false }

/-- A fresh session: entry point `capture`, fresh state, all signals clear,
nothing persisted yet. -/
def initSys (session_id : String) : Sys :=
  { node := Node.capture
    st := initial_state session_id
    ctl := Control.init
    saves := [] }

/-- Configurations reachable within one session. -/
def Reachable (session_id : String) (s : Sys) : Prop :=
  Relation.ReflTransGen Step (initSys session_id) s

/-- The confidence values that can reach a finalized step: the three
certainty scores, the `.get` default, and the human-confirmed 1.0. -/
def valid_scores : List ℚ := [q0_4, q0_5, q0_7, q0_9, 1]

theorem certainty_to_score_mem (s : String) :
    certainty_to_score s ∈ valid_scores := by
  unfold certainty_to_score
  by_cases h1 : str_lower s = "high"
  · simp [List.lookup, h1, valid_scores]
  · have b1 : (str_lower s == "high") = false := beq_eq_false_iff_ne.mpr h1
    by_cases h2 : str_lower s = "medium"
    · simp [List.lookup, b1, h2, valid_scores]
    · have b2 : (str_lower s == "medium") = false := beq_eq_false_iff_ne.mpr h2
      by_cases h3 : str_lower s = "low"
      · simp [List.lookup, b1, b2, h3, valid_scores]
      · have b3 : (str_lower s == "low") = false := beq_eq_false_iff_ne.mpr h3
        simp [List.lookup, b1, b2, b3, valid_scores]

theorem stepnums_append {l : List WorkflowStep} {stp : WorkflowStep}
    (h : l.map (fun x => x.step_number) = List.range' 1 l.length)
    (hstp : stp.step_number = l.length + 1) :
    (l ++ [stp]).map (fun x => x.step_number) =
      List.range' 1 (l ++ [stp]).length := by
  have hr : List.range' 1 (l.length + 1) =
      List.range' 1 l.length ++ [l.length + 1] := by
    have h2 := @List.range'_concat 1 1 l.length
    rw [one_mul, Nat.add_comm 1 l.length] at h2
    exact h2
  calc (l ++ [stp]).map (fun x => x.step_number)
      = List.range' 1 l.length ++ [l.length + 1] := by simp [h, hstp]
    _ = List.range' 1 (l.length + 1) := hr.symm
    _ = List.range' 1 ((l ++ [stp]).length) := by simp

theorem analyze_no_clarification_score (force : Bool) (oc : AnalyzeOutcome)
    (h : (analyze_screenshot force oc).1.needs_clarification = false) :
    (analyze_screenshot force oc).1.confidence_score ∈ valid_scores := by
  cases oc with
  | fail1 errQ => simp [analyze_screenshot, generate_error_response] at h
  | fail2 basic errQ =>
    cases force with
    | true => simp [analyze_screenshot, forced_result] at h
    | false => simp [analyze_screenshot, generate_error_response] at h
  | ok basic clar =>
    cases force with
    | true => simp [analyze_screenshot, forced_result] at h
    | false =>
      simpa [analyze_screenshot] using
        certainty_to_score_mem basic.certainty_level

/-- The inductive invariant of a session: finalized step numbers are exactly
`1..N`, every finalized confidence is one of the five reachable values, and
the bookkeeping between `current_step`, the step sequence and the control
flow position needed to push the invariant through each node. -/
structure SysInv (s : Sys) : Prop where
  nums : s.st.steps.map (fun stp => stp.step_number) =
    List.range' 1 s.st.steps.length
  scores : ∀ stp ∈ s.st.steps, stp.confidence_score ∈ valid_scores
  loopOk : (s.node = Node.capture ∨ s.node = Node.analyze ∨
      s.node = Node.human_input ∨ s.node = Node.check_continuation) →
      s.st.phase = "capture" ∧ s.st.continue_workflow = true
  pending : (s.node = Node.analyze ∨ s.node = Node.human_input) →
      s.st.current_step = s.st.steps.length + 1 ∧ s.st.screenshots ≠ []
  settled : s.node ≠ Node.analyze → s.node ≠ Node.human_input →
      s.st.current_step = s.st.steps.length
  hin : s.node = Node.human_input → s.st.needs_human_input = true

theorem sysInv_init (sid : String) : SysInv (initSys sid) := by
  refine ⟨?_, ?_, ?_, ?_, ?_, ?_⟩ <;> simp [initSys, initial_state]

theorem sysInv_preserved {s s' : Sys} (h : SysInv s) (hs : Step s s') :
    SysInv s' := by
  cases hs with
  | listener ctl' hw =>
    exact ⟨h.nums, h.scores, h.loopOk, h.pending, h.settled, h.hin⟩
  | run_capture path hnode =>
    obtain ⟨hph, hcont⟩ := h.loopOk (Or.inl hnode)
    have hlen := h.settled (by simp [hnode]) (by simp [hnode])
    have hcap : (capture_workflow_node s.st s.ctl path).1 =
        { s.st with screenshots := s.st.screenshots ++ [path]
                    current_step := s.st.current_step + 1 } := by
      simp [capture_workflow_node, hcont]
    refine ⟨?_, ?_, ?_, ?_, ?_, ?_⟩
    · simpa [hcap] using h.nums
    · simpa [hcap] using h.scores
    · exact fun _ => ⟨by simp [hcap, hph], by simp [hcap, hcont]⟩
    · exact fun _ => ⟨by simp [hcap, hlen], by simp [hcap]⟩
    · intro hne _; exact absurd rfl hne
    · intro hh; exact Node.noConfusion hh
  | run_analyze oc ts hnode =>
    obtain ⟨hph, hcont⟩ := h.loopOk (Or.inr (Or.inl hnode))
    obtain ⟨hcs, hshots⟩ := h.pending (Or.inl hnode)
    obtain ⟨latest, hlast⟩ : ∃ x, s.st.screenshots.getLast? = some x := by
      cases hg : s.st.screenshots.getLast? with
      | none => exact absurd (List.getLast?_eq_none_iff.mp hg) hshots
      | some x => exact ⟨x, rfl⟩
    by_cases hc :
        (analyze_screenshot s.ctl.force_human_input oc).1.needs_clarification = true
    · have hst : (analyze_workflow_node s.st s.ctl.force_human_input oc ts).1 =
          { s.st with
              needs_human_input := true
              human_question :=
                (analyze_screenshot s.ctl.force_human_input oc).1.clarification_question } := by
        simp [analyze_workflow_node, hlast, hc]
      have hedge :
          analyze_edge (analyze_workflow_node s.st s.ctl.force_human_input oc ts).1 =
            Node.human_input := by
        simp [analyze_edge, hst]
      refine ⟨?_, ?_, ?_, ?_, ?_, ?_⟩
      · simpa [hst] using h.nums
      · simpa [hst] using h.scores
      · exact fun _ => ⟨by simp [hst, hph], by simp [hst, hcont]⟩
      · exact fun _ => ⟨by simp [hst, hcs], by simp [hst, hshots]⟩
      · intro _ hne; rw [hedge] at hne; exact absurd rfl hne
      · intro _; simp [hst]
    · have hcf : (analyze_screenshot s.ctl.force_human_input oc).1.needs_clarification =
          false := by
        exact Bool.not_eq_true _ ▸ eq_false_of_ne_true hc
      have hst : (analyze_workflow_node s.st s.ctl.force_human_input oc ts).1 =
          { s.st with
              steps := s.st.steps ++
                [{ step_number := s.st.current_step
                   action := (analyze_screenshot s.ctl.force_human_input oc).1.action
                   motivation := (analyze_screenshot s.ctl.force_human_input oc).1.motivation
                   ui_elements := (analyze_screenshot s.ctl.force_human_input oc).1.ui_elements
                   timestamp := ts
                   screenshot_path := latest
                   confidence_score :=
                     (analyze_screenshot s.ctl.force_human_input oc).1.confidence_score }]
              needs_human_input := false } := by
        simp [analyze_workflow_node, hlast, hcf]
      have hedge :
          analyze_edge (analyze_workflow_node s.st s.ctl.force_human_input oc ts).1 =
            Node.check_continuation := by
        simp [analyze_edge, hst]
      refine ⟨?_, ?_, ?_, ?_, ?_, ?_⟩
      · rw [hst]
        exact stepnums_append h.nums (by simp [hcs])
      · intro stp hstp
        rw [hst] at hstp
        rcases List.mem_append.mp hstp with hold | hnew
        · exact h.scores stp hold
        · rw [List.mem_singleton.mp hnew]
          exact analyze_no_clarification_score _ _ hcf
      · exact fun _ => ⟨by simp [hst, hph], by simp [hst, hcont]⟩
      · intro hpre
        rw [hedge] at hpre
        rcases hpre with hp | hp <;> exact Node.noConfusion hp
      · intro _ _; simp [hst, hcs]
      · intro hh; rw [hedge] at hh; exact Node.noConfusion hh
  | run_human_input resp integ ts hnode =>
    obtain ⟨hph, hcont⟩ := h.loopOk (Or.inr (Or.inr (Or.inl hnode)))
    obtain ⟨hcs, hshots⟩ := h.pending (Or.inr hnode)
    have hneeds := h.hin hnode
    obtain ⟨latest, hlast⟩ : ∃ x, s.st.screenshots.getLast? = some x := by
      cases hg : s.st.screenshots.getLast? with
      | none => exact absurd (List.getLast?_eq_none_iff.mp hg) hshots
      | some x => exact ⟨x, rfl⟩
    cases integ with
    | ok resp' =>
      have hst : human_input_node s.st resp (IntegrationOutcome.ok resp') ts =
          { s.st with
              steps := s.st.steps ++
                [{ step_number := s.st.current_step
                   action := resp'.action.getD "USER_PROVIDED_ACTION"
                   motivation := resp'.motivation.getD resp
                   ui_elements := resp'.ui_elements.getD []
                   timestamp := ts
                   screenshot_path := latest
                   confidence_score := 1 }]
              needs_human_input := false
              human_question := "" } := by
        simp [human_input_node, hneeds, hlast]
      refine ⟨?_, ?_, ?_, ?_, ?_, ?_⟩
      · rw [hst]
        exact stepnums_append h.nums (by simp [hcs])
      · intro stp hstp
        rw [hst] at hstp
        rcases List.mem_append.mp hstp with hold | hnew
        · exact h.scores stp hold
        · rw [List.mem_singleton.mp hnew]
          simp [valid_scores]
      · exact fun _ => ⟨by simp [hst, hph], by simp [hst, hcont]⟩
      · intro hpre
        rcases hpre with hp | hp <;> exact Node.noConfusion hp
      · intro _ _; simp [hst, hcs]
      · intro hh; exact Node.noConfusion hh
    | fail extracted =>
      have hst : human_input_node s.st resp (IntegrationOutcome.fail extracted) ts =
          { s.st with
              steps := s.st.steps ++
                [{ step_number := s.st.current_step
                   action := extract_action_from_human_input resp extracted
                   motivation := resp
                   ui_elements := []
                   timestamp := ts
                   screenshot_path := latest
                   confidence_score := 1 }]
              needs_human_input := false
              human_question := "" } := by
        simp [human_input_node, hneeds, hlast]
      refine ⟨?_, ?_, ?_, ?_, ?_, ?_⟩
      · rw [hst]
        exact stepnums_append h.nums (by simp [hcs])
      · intro stp hstp
        rw [hst] at hstp
        rcases List.mem_append.mp hstp with hold | hnew
        · exact h.scores stp hold
        · rw [List.mem_singleton.mp hnew]
          simp [valid_scores]
      · exact fun _ => ⟨by simp [hst, hph], by simp [hst, hcont]⟩
      · intro hpre
        rcases hpre with hp | hp <;> exact Node.noConfusion hp
      · intro _ _; simp [hst, hcs]
      · intro hh; exact Node.noConfusion hh
  | run_check hnode =>
    obtain ⟨hph, hcont⟩ := h.loopOk (Or.inr (Or.inr (Or.inr hnode)))
    have hlen := h.settled (by simp [hnode]) (by simp [hnode])
    by_cases hstop : s.ctl.stop_workflow = true
    · have hcc : check_continuation_node s.st s.ctl =
          ({ s.st with continue_workflow := false, analysis_complete := true },
            s.ctl, some (s.st.session_id, s.st.steps)) := by
        simp [check_continuation_node, hstop]
      have hedge : check_continuation_edge (check_continuation_node s.st s.ctl).1
          (check_continuation_node s.st s.ctl).2.1 = Node.terminal := by
        simp [hcc, check_continuation_edge, hstop]
      refine ⟨?_, ?_, ?_, ?_, ?_, ?_⟩
      · simpa [hcc] using h.nums
      · simpa [hcc] using h.scores
      · intro hpre
        rw [hedge] at hpre
        rcases hpre with hp | hp | hp | hp <;> exact Node.noConfusion hp
      · intro hpre
        rw [hedge] at hpre
        rcases hpre with hp | hp <;> exact Node.noConfusion hp
      · intro _ _; simp [hcc, hlen]
      · intro hh; rw [hedge] at hh; exact Node.noConfusion hh
    · have hstop' : s.ctl.stop_workflow = false := by
        exact Bool.not_eq_true _ ▸ eq_false_of_ne_true hstop
      by_cases htr : s.ctl.transition_to_enhancement = true
      · have hcc : check_continuation_node s.st s.ctl =
            ({ s.st with phase := "enhancement"
                         continue_workflow := false
                         analysis_complete := false },
              { s.ctl with transition_to_enhancement := false },
              some (s.st.session_id, s.st.steps)) := by
          simp [check_continuation_node, hstop', htr, hph]
        have hedge : check_continuation_edge (check_continuation_node s.st s.ctl).1
            (check_continuation_node s.st s.ctl).2.1 = Node.enhancement_analysis := by
          simp [hcc, check_continuation_edge, hstop']
        refine ⟨?_, ?_, ?_, ?_, ?_, ?_⟩
        · simpa [hcc] using h.nums
        · simpa [hcc] using h.scores
        · intro hpre
          rw [hedge] at hpre
          rcases hpre with hp | hp | hp | hp <;> exact Node.noConfusion hp
        · intro hpre
          rw [hedge] at hpre
          rcases hpre with hp | hp <;> exact Node.noConfusion hp
        · intro _ _; simp [hcc, hlen]
        · intro hh; rw [hedge] at hh; exact Node.noConfusion hh
      · have htr' : s.ctl.transition_to_enhancement = false := by
          exact Bool.not_eq_true _ ▸ eq_false_of_ne_true htr
        have hcc : check_continuation_node s.st s.ctl = (s.st, s.ctl, none) := by
          simp [check_continuation_node, hstop', htr']
        by_cases hac : s.st.analysis_complete = true
        · have hedge : check_continuation_edge (check_continuation_node s.st s.ctl).1
              (check_continuation_node s.st s.ctl).2.1 = Node.terminal := by
            simp [hcc, check_continuation_edge, hstop', hac]
          refine ⟨?_, ?_, ?_, ?_, ?_, ?_⟩
          · simpa [hcc] using h.nums
          · simpa [hcc] using h.scores
          · intro hpre
            rw [hedge] at hpre
            rcases hpre with hp | hp | hp | hp <;> exact Node.noConfusion hp
          · intro hpre
            rw [hedge] at hpre
            rcases hpre with hp | hp <;> exact Node.noConfusion hp
          · intro _ _; simp [hcc, hlen]
          · intro hh; rw [hedge] at hh; exact Node.noConfusion hh
        · have hac' : s.st.analysis_complete = false := by
            exact Bool.not_eq_true _ ▸ eq_false_of_ne_true hac
          have hedge : check_continuation_edge (check_continuation_node s.st s.ctl).1
              (check_continuation_node s.st s.ctl).2.1 = Node.capture := by
            simp [hcc, check_continuation_edge, hstop', hac', hph]
          refine ⟨?_, ?_, ?_, ?_, ?_, ?_⟩
          · simpa [hcc] using h.nums
          · simpa [hcc] using h.scores
          · exact fun _ => ⟨by simp [hcc, hph], by simp [hcc, hcont]⟩
          · intro hpre
            rw [hedge] at hpre
            rcases hpre with hp | hp <;> exact Node.noConfusion hp
          · intro _ _; simp [hcc, hlen]
          · intro hh; rw [hedge] at hh; exact Node.noConfusion hh
  | run_enh_analysis oc hnode =>
    have hlen := h.settled (by simp [hnode]) (by simp [hnode])
    have hsteps : (enhancement_analysis_node s.st oc).steps = s.st.steps := by
      unfold enhancement_analysis_node
      split <;> [skip; (cases oc with | none => rfl | some a => ?_)] <;>
        first | rfl | (dsimp only []; split <;> rfl)
    have hcs : (enhancement_analysis_node s.st oc).current_step =
        s.st.current_step := by
      unfold enhancement_analysis_node
      split <;> [skip; (cases oc with | none => rfl | some a => ?_)] <;>
        first | rfl | (dsimp only []; split <;> rfl)
    refine ⟨?_, ?_, ?_, ?_, ?_, ?_⟩
    · rw [hsteps]; exact h.nums
    · rw [hsteps]; exact h.scores
    · intro hpre
      rcases hpre with hp | hp | hp | hp <;>
        simp only [enhancement_analysis_edge] at hp <;> split at hp <;>
          exact Node.noConfusion hp
    · intro hpre
      rcases hpre with hp | hp <;>
        simp only [enhancement_analysis_edge] at hp <;> split at hp <;>
          exact Node.noConfusion hp
    · intro _ _; rw [hcs, hsteps]; exact hlen
    · intro hh
      simp only [enhancement_analysis_edge] at hh
      split at hh <;> exact Node.noConfusion hh
  | run_enh_refinement env hnode =>
    have hlen := h.settled (by simp [hnode]) (by simp [hnode])
    have hsteps : (enhancement_refinement_node s.st env).1.steps = s.st.steps := by
      unfold enhancement_refinement_node
      split <;> rfl
    have hcs : (enhancement_refinement_node s.st env).1.current_step =
        s.st.current_step := by
      unfold enhancement_refinement_node
      split <;> rfl
    refine ⟨?_, ?_, ?_, ?_, ?_, ?_⟩
    · rw [hsteps]; exact h.nums
    · rw [hsteps]; exact h.scores
    · intro hpre
      rcases hpre with hp | hp | hp | hp <;> exact Node.noConfusion hp
    · intro hpre
      rcases hpre with hp | hp <;> exact Node.noConfusion hp
    · intro _ _; rw [hcs, hsteps]; exact hlen
    · intro hh; exact Node.noConfusion hh

theorem reachable_inv {sid : String} {s : Sys} (h : Reachable sid s) :
    SysInv s := by
  unfold Reachable at h
  induction h with
  | refl => exact sysInv_init sid
  | tail hab hbc ih => exact sysInv_preserved ih hbc

theorem terminal_no_step {s s' : Sys} (hn : s.node = Node.terminal)
    (hs : Step s s') :
    s'.node = Node.terminal ∧ s'.st = s.st ∧ s'.saves = s.saves := by
  cases hs with
  | listener ctl' hw => exact ⟨hn, rfl, rfl⟩
  | run_capture path h => rw [hn] at h; exact Node.noConfusion h
  | run_analyze oc ts h => rw [hn] at h; exact Node.noConfusion h
  | run_human_input resp integ ts h => rw [hn] at h; exact Node.noConfusion h
  | run_check h => rw [hn] at h; exact Node.noConfusion h
  | run_enh_analysis oc h => rw [hn] at h; exact Node.noConfusion h
  | run_enh_refinement env h => rw [hn] at h; exact Node.noConfusion h

theorem terminal_frozen {s s' : Sys} (hn : s.node = Node.terminal)
    (hr : Relation.ReflTransGen Step s s') :
    s'.node = Node.terminal ∧ s'.st = s.st ∧ s'.saves = s.saves := by
  induction hr with
  | refl => exact ⟨hn, rfl, rfl⟩
  | tail hab hstep ih =>
    obtain ⟨h1, h2, h3⟩ := ih
    obtain ⟨g1, g2, g3⟩ := terminal_no_step h1 hstep
    exact ⟨g1, g2.trans h2, g3.trans h3⟩

/- A concrete session run used to witness the reachability-based theorems:
two capture/analyze cycles (the first finalized automatically, the second
through a clarification round whose integration call fails), then a Stop
hotkey and the final continuation check. -/

def demo_basic1 : BasicAnalysis :=
  { action := "USER_OPENED_MENU"
    motivation := "navigate to settings"
    ui_elements := ["menu"]
    certainty_level := "high" }

def demo_basic2 : BasicAnalysis :=
  { action := "USER_CLICKED_BUTTON"
    motivation := "unclear"
    ui_elements := ["button"]
    certainty_level := "low" }

def demo0 : Sys := initSys "sess"

def demo1 : Sys :=
  { demo0 with
      node := Node.analyze
      st := (capture_workflow_node demo0.st demo0.ctl "shot1").1 }

def demo2 : Sys :=
  { demo1 with
      node := analyze_edge (analyze_workflow_node demo1.st
        demo1.ctl.force_human_input
        (AnalyzeOutcome.ok demo_basic1 ⟨false, ""⟩) "t1").1
      st := (analyze_workflow_node demo1.st demo1.ctl.force_human_input
        (AnalyzeOutcome.ok demo_basic1 ⟨false, ""⟩) "t1").1
      ctl := { demo1.ctl with
        force_human_input := (analyze_workflow_node demo1.st
          demo1.ctl.force_human_input
          (AnalyzeOutcome.ok demo_basic1 ⟨false, ""⟩) "t1").2 } }

def demo3 : Sys :=
  { demo2 with
      node := check_continuation_edge (check_continuation_node demo2.st demo2.ctl).1
        (check_continuation_node demo2.st demo2.ctl).2.1
      st := (check_continuation_node demo2.st demo2.ctl).1
      ctl := (check_continuation_node demo2.st demo2.ctl).2.1
      saves := demo2.saves ++ (check_continuation_node demo2.st demo2.ctl).2.2.toList }

def demo4 : Sys :=
  { demo3 with
      node := Node.analyze
      st := (capture_workflow_node demo3.st demo3.ctl "shot2").1 }

def demo5 : Sys :=
  { demo4 with
      node := analyze_edge (analyze_workflow_node demo4.st
        demo4.ctl.force_human_input
        (AnalyzeOutcome.ok demo_basic2 ⟨true, "What was the goal?"⟩) "t2").1
      st := (analyze_workflow_node demo4.st demo4.ctl.force_human_input
        (AnalyzeOutcome.ok demo_basic2 ⟨true, "What was the goal?"⟩) "t2").1
      ctl := { demo4.ctl with
        force_human_input := (analyze_workflow_node demo4.st
          demo4.ctl.force_human_input
          (AnalyzeOutcome.ok demo_basic2 ⟨true, "What was the goal?"⟩) "t2").2 } }

def demo6 : Sys :=
  { demo5 with
      node := Node.check_continuation
      st := human_input_node demo5.st "I wanted to export the report"
        (IntegrationOutcome.fail none) "t3" }

def demo7 : Sys :=
  { demo6 with ctl := { demo6.ctl with stop_workflow := true } }

def demo8 : Sys :=
  { demo7 with
      node := check_continuation_edge (check_continuation_node demo7.st demo7.ctl).1
        (check_continuation_node demo7.st demo7.ctl).2.1
      st := (check_continuation_node demo7.st demo7.ctl).1
      ctl := (check_continuation_node demo7.st demo7.ctl).2.1
      saves := demo7.saves ++ (check_continuation_node demo7.st demo7.ctl).2.2.toList }

theorem demo_reachable : Reachable "sess" demo8 := by
  unfold Reachable
  refine Relation.ReflTransGen.tail (Relation.ReflTransGen.tail
    (Relation.ReflTransGen.tail (Relation.ReflTransGen.tail
      (Relation.ReflTransGen.tail (Relation.ReflTransGen.tail
        (Relation.ReflTransGen.tail (Relation.ReflTransGen.tail
          Relation.ReflTransGen.refl
          (Step.run_capture demo0 "shot1" rfl))
          (Step.run_analyze demo1 (AnalyzeOutcome.ok demo_basic1 ⟨false, ""⟩) "t1" rfl))
        (Step.run_check demo2 (by decide)))
        (Step.run_capture demo3 "shot2" (by decide)))
      (Step.run_analyze demo4 (AnalyzeOutcome.ok demo_basic2
        ⟨true, "What was the goal?"⟩) "t2" rfl))
      (Step.run_human_input demo5 "I wanted to export the report"
        (IntegrationOutcome.fail none) "t3" (by decide)))
    (Step.listener demo6 { demo6.ctl with stop_workflow := true }
      (ListenerWrite.stop demo6.ctl)))
    (Step.run_check demo7 rfl)

/- Shared concrete inputs for witnesses and counterexamples. -/

/-- A mid-session state awaiting a clarification answer: one screenshot
captured, no step finalized yet for the current cycle. -/
def clarify_state : WorkflowState :=
  { session_id := "sess"
    screenshots := ["shot1"]
    steps := []
    current_step := 1
    analysis_complete := false
    needs_human_input := true
    human_question := "What happened?"
    continue_workflow := true
    phase := "capture"
    enhancement_complete := false }

/-- The signal store with only `Stop` set. -/
def stop_ctl : Control :=
  { transition_to_enhancement := false
    stop_workflow := true
    force_human_input := false }

/-- The signal store with only `TransitionToEnhancement` set. -/
def trans_ctl : Control :=
  { transition_to_enhancement := true
    stop_workflow := false
    force_human_input := false }

/-- C1: for every configuration reachable in a session — hence for every
finalized step sequence the session produces, regardless of how many
clarification rounds occurred — the `step_number` fields of the appended
steps are exactly `1..N` in order, with no gaps and no repeats, where N is
the length of the sequence. -/
theorem c1_step_numbers_exact {sid : String} {s : Sys} (h : Reachable sid s) :
    s.st.steps.map (fun stp => stp.step_number) =
      List.range' 1 s.st.steps.length :=
  (reachable_inv h).nums

/-- Witness for C1 at the concrete demo run: two finalized steps (one
automated, one through a clarification round), numbered `[1, 2]`. -/
theorem c1_step_numbers_exact_witness :
    demo8.st.steps.length = 2 ∧
    demo8.st.steps.map (fun stp => stp.step_number) =
      List.range' 1 demo8.st.steps.length :=
  ⟨by decide, c1_step_numbers_exact demo_reachable⟩

/-- C2: when the continuation check observes `Stop`, it issues exactly one
persist whose content is exactly the steps finalized strictly before the
observation, routes to the terminal vertex, and from the terminal vertex no
transition ever changes the step sequence or the persisted artifacts. -/
theorem c2_stop_final_persist :
    (∀ (st : WorkflowState) (ctl : Control), ctl.stop_workflow = true →
      check_continuation_node st ctl =
        ({ st with continue_workflow := false, analysis_complete := true },
          ctl, some (st.session_id, st.steps)) ∧
      check_continuation_edge (check_continuation_node st ctl).1
        (check_continuation_node st ctl).2.1 = Node.terminal) ∧
    (∀ (s s' : Sys), s.node = Node.terminal →
      Relation.ReflTransGen Step s s' →
      s'.node = Node.terminal ∧ s'.st = s.st ∧ s'.saves = s.saves) := by
  constructor
  · intro st ctl hstop
    constructor
    · simp [check_continuation_node, hstop]
    · simp [check_continuation_node, check_continuation_edge, hstop]
  · intro s s' hn hr
    exact terminal_frozen hn hr

/-- Witness for C2: the stop observation at a concrete state, and a
concrete post-terminal transition (a listener write after the demo run)
leaving steps and persisted artifacts unchanged. -/
theorem c2_stop_final_persist_witness :
    (stop_ctl.stop_workflow = true ∧
      check_continuation_node clarify_state stop_ctl =
        ({ clarify_state with continue_workflow := false, analysis_complete := true },
          stop_ctl, some (clarify_state.session_id, clarify_state.steps)) ∧
      check_continuation_edge (check_continuation_node clarify_state stop_ctl).1
        (check_continuation_node clarify_state stop_ctl).2.1 = Node.terminal) ∧
    (demo8.node = Node.terminal ∧
      ({ demo8 with ctl := { demo8.ctl with force_human_input := true } } : Sys).st =
        demo8.st ∧
      ({ demo8 with ctl := { demo8.ctl with force_human_input := true } } : Sys).saves =
        demo8.saves) :=
  ⟨⟨rfl, (c2_stop_final_persist.1 clarify_state stop_ctl rfl).1,
      (c2_stop_final_persist.1 clarify_state stop_ctl rfl).2⟩,
    by decide,
    (c2_stop_final_persist.2 demo8
      { demo8 with ctl := { demo8.ctl with force_human_input := true } } (by decide)
      (Relation.ReflTransGen.tail Relation.ReflTransGen.refl
        (Step.listener demo8 { demo8.ctl with force_human_input := true }
          (ListenerWrite.force demo8.ctl)))).2.1,
    (c2_stop_final_persist.2 demo8
      { demo8 with ctl := { demo8.ctl with force_human_input := true } } (by decide)
      (Relation.ReflTransGen.tail Relation.ReflTransGen.refl
        (Step.listener demo8 { demo8.ctl with force_human_input := true }
          (ListenerWrite.force demo8.ctl)))).2.2⟩

/-- C3 counterexample: the claim requires 0.5 for every input string other
than "high", "medium", "low", but the conversion lowercases its input
first: on "HIGH" — which is none of the three strings — it returns 0.9,
not 0.5. -/
theorem c3_counterexample :
    certainty_to_score "HIGH" = q0_9 ∧ q0_9 ≠ q0_5 ∧
    "HIGH" ≠ "high" ∧ "HIGH" ≠ "medium" ∧ "HIGH" ≠ "low" := by decide

/-- C3 amended: the conversion applies the exact mapping to the lowercased
input: 0.9 when the input lowercases to "high", 0.7 for "medium", 0.4 for
"low", and 0.5 for every other string. -/
theorem c3_certainty_mapping (s : String) :
    certainty_to_score s =
      if str_lower s = "high" then q0_9
      else if str_lower s = "medium" then q0_7
      else if str_lower s = "low" then q0_4
      else q0_5 := by
  unfold certainty_to_score
  by_cases h1 : str_lower s = "high"
  · simp [List.lookup, h1]
  · have b1 : (str_lower s == "high") = false := beq_eq_false_iff_ne.mpr h1
    by_cases h2 : str_lower s = "medium"
    · simp [List.lookup, b1, h1, h2]
    · have b2 : (str_lower s == "medium") = false := beq_eq_false_iff_ne.mpr h2
      by_cases h3 : str_lower s = "low"
      · simp [List.lookup, b1, b2, h1, h2, h3]
      · have b3 : (str_lower s == "low") = false := beq_eq_false_iff_ne.mpr h3
        simp [List.lookup, b1, b2, b3, h1, h2, h3]

/-- C4: every step finalized through `human_input_node` — on the successful
integration path and on the integration-failure fallback path alike — is
appended with `confidence_score = 1.0`. -/
theorem c4_human_confidence_one (st : WorkflowState) (resp : String)
    (integ : IntegrationOutcome) (ts : String)
    (hneeds : st.needs_human_input = true) (hshots : st.screenshots ≠ []) :
    ∃ stp : WorkflowStep,
      (human_input_node st resp integ ts).steps = st.steps ++ [stp] ∧
      stp.confidence_score = 1 := by
  obtain ⟨latest, hlast⟩ : ∃ x, st.screenshots.getLast? = some x := by
    cases hg : st.screenshots.getLast? with
    | none => exact absurd (List.getLast?_eq_none_iff.mp hg) hshots
    | some x => exact ⟨x, rfl⟩
  cases integ with
  | ok resp' =>
    exact ⟨{ step_number := st.current_step
             action := resp'.action.getD "USER_PROVIDED_ACTION"
             motivation := resp'.motivation.getD resp
             ui_elements := resp'.ui_elements.getD []
             timestamp := ts
             screenshot_path := latest
             confidence_score := 1 },
      by simp [human_input_node, hneeds, hlast], rfl⟩
  | fail extracted =>
    exact ⟨{ step_number := st.current_step
             action := extract_action_from_human_input resp extracted
             motivation := resp
             ui_elements := []
             timestamp := ts
             screenshot_path := latest
             confidence_score := 1 },
      by simp [human_input_node, hneeds, hlast], rfl⟩

/-- Witness for C4 at a concrete clarification state on the successful
integration path. -/
theorem c4_human_confidence_one_witness :
    clarify_state.needs_human_input = true ∧ clarify_state.screenshots ≠ [] ∧
    ∃ stp : WorkflowStep,
      (human_input_node clarify_state "I exported the data"
        (IntegrationOutcome.ok { action := some "USER_EXPORTED_DATA"
                                 motivation := none
                                 ui_elements := some ["button"] }) "t").steps =
        clarify_state.steps ++ [stp] ∧
      stp.confidence_score = 1 :=
  ⟨rfl, by decide,
    c4_human_confidence_one clarify_state "I exported the data"
      (IntegrationOutcome.ok { action := some "USER_EXPORTED_DATA"
                               motivation := none
                               ui_elements := some ["button"] }) "t" rfl (by decide)⟩

/-- C5: when the clarification-integration call fails, the node appends a
minimal step built from the raw human answer: the action label derived by
`extract_action_from_human_input` from the answer, the verbatim answer as
motivation, empty UI elements, and `confidence_score = 1.0` — so a collected
answer always yields an appended step and is never silently dropped. -/
theorem c5_integration_failure_fallback (st : WorkflowState) (resp : String)
    (extracted : Option String) (ts : String)
    (hneeds : st.needs_human_input = true) (hshots : st.screenshots ≠ []) :
    ∃ latest, st.screenshots.getLast? = some latest ∧
      (human_input_node st resp (IntegrationOutcome.fail extracted) ts).steps =
        st.steps ++
          [{ step_number := st.current_step
             action := extract_action_from_human_input resp extracted
             motivation := resp
             ui_elements := []
             timestamp := ts
             screenshot_path := latest
             confidence_score := 1 }] := by
  obtain ⟨latest, hlast⟩ : ∃ x, st.screenshots.getLast? = some x := by
    cases hg : st.screenshots.getLast? with
    | none => exact absurd (List.getLast?_eq_none_iff.mp hg) hshots
    | some x => exact ⟨x, rfl⟩
  exact ⟨latest, hlast, by simp [human_input_node, hneeds, hlast]⟩

/-- Witness for C5 at a concrete clarification state, with the nested
extraction call also failing (fixed fallback label). -/
theorem c5_integration_failure_fallback_witness :
    clarify_state.needs_human_input = true ∧ clarify_state.screenshots ≠ [] ∧
    ∃ latest, clarify_state.screenshots.getLast? = some latest ∧
      (human_input_node clarify_state "I saved the file"
        (IntegrationOutcome.fail none) "t").steps =
        clarify_state.steps ++
          [{ step_number := clarify_state.current_step
             action := extract_action_from_human_input "I saved the file" none
             motivation := "I saved the file"
             ui_elements := []
             timestamp := "t"
             screenshot_path := latest
             confidence_score := 1 }] :=
  ⟨rfl, by decide,
    c5_integration_failure_fallback clarify_state "I saved the file" none "t"
      rfl (by decide)⟩

/-- C6 counterexample: with `Stop` already set and `current_step > 0`, the
capture suspension still lasts the full 10-unit interval — it is not
interrupted, so shutdown latency is not bounded below the full interval. -/
theorem c6_counterexample :
    (capture_workflow_node clarify_state stop_ctl "shot2").2 = 10 ∧
    ¬ (capture_workflow_node clarify_state stop_ctl "shot2").2 < 10 := by decide

/-- C6 amended: the capture suspension is a fixed, uninterruptible sleep:
whenever the loop is continuing and `current_step > 0` the wait is exactly
10 time units, and the node's entire result is independent of the signal
store — `Stop` is not polled during the suspension and is only observed at
the next continuation check. -/
theorem c6_sleep_uninterruptible (st : WorkflowState) (ctl ctl' : Control)
    (path : String) (hc : st.continue_workflow = true)
    (hcs : 0 < st.current_step) :
    (capture_workflow_node st ctl path).2 = 10 ∧
    capture_workflow_node st ctl path = capture_workflow_node st ctl' path := by
  constructor
  · simp [capture_workflow_node, hc, hcs]
  · rfl

/-- Witness for C6 at a concrete mid-session state, comparing an all-clear
signal store with one where `Stop` is set. -/
theorem c6_sleep_uninterruptible_witness :
    clarify_state.continue_workflow = true ∧ 0 < clarify_state.current_step ∧
    ((capture_workflow_node clarify_state Control.init "shot2").2 = 10 ∧
      capture_workflow_node clarify_state Control.init "shot2" =
        capture_workflow_node clarify_state stop_ctl "shot2") :=
  ⟨rfl, by decide,
    c6_sleep_uninterruptible clarify_state Control.init stop_ctl "shot2" rfl
      (by decide)⟩

/-- C7 counterexample: `Stop` consumption is not test-and-clear: after the
continuation check observes `Stop`, the flag is still set, and a further
continuation check on the resulting state observes it true again — issuing
a second persist — with no intervening set. -/
theorem c7_counterexample :
    (check_continuation_node clarify_state stop_ctl).2.1.stop_workflow = true ∧
    (check_continuation_node (check_continuation_node clarify_state stop_ctl).1
        (check_continuation_node clarify_state stop_ctl).2.1).2.2.isSome = true := by
  decide

/-- C7 amended: `TransitionToEnhancement` and `ForceHumanInput` are consumed
test-and-clear (the consuming observation resets the flag, so a single set
is observed true at most once); `Stop` is observed but never cleared — the
stop observation leaves the whole signal store unchanged, and within a
session it triggers its transition at most once only because the observing
check routes to the terminal vertex. -/
theorem c7_signal_consumption :
    (∀ (st : WorkflowState) (ctl : Control), ctl.stop_workflow = false →
      ctl.transition_to_enhancement = true → st.phase = "capture" →
      (check_continuation_node st ctl).2.1.transition_to_enhancement = false) ∧
    (∀ (basic : BasicAnalysis) (clar : ClarificationAnalysis),
      (analyze_screenshot true (AnalyzeOutcome.ok basic clar)).2 = false) ∧
    (∀ (st : WorkflowState) (ctl : Control), ctl.stop_workflow = true →
      (check_continuation_node st ctl).2.1 = ctl ∧
      check_continuation_edge (check_continuation_node st ctl).1
        (check_continuation_node st ctl).2.1 = Node.terminal) := by
  refine ⟨?_, ?_, ?_⟩
  · intro st ctl h1 h2 h3
    simp [check_continuation_node, h1, h2, h3]
  · intro basic clar
    rfl
  · intro st ctl h1
    constructor
    · simp [check_continuation_node, h1]
    · simp [check_continuation_node, check_continuation_edge, h1]

/-- Witness for C7 at concrete signal stores: a transition consumption that
clears the flag, a forced-clarification consumption that clears the flag,
and a stop observation that leaves the store unchanged and terminates. -/
theorem c7_signal_consumption_witness :
    (trans_ctl.stop_workflow = false ∧
      trans_ctl.transition_to_enhancement = true ∧
      clarify_state.phase = "capture" ∧
      (check_continuation_node clarify_state trans_ctl).2.1.transition_to_enhancement =
        false) ∧
    (analyze_screenshot true (AnalyzeOutcome.ok demo_basic1 ⟨false, ""⟩)).2 = false ∧
    (stop_ctl.stop_workflow = true ∧
      (check_continuation_node clarify_state stop_ctl).2.1 = stop_ctl ∧
      check_continuation_edge (check_continuation_node clarify_state stop_ctl).1
        (check_continuation_node clarify_state stop_ctl).2.1 = Node.terminal) :=
  ⟨⟨rfl, rfl, rfl, c7_signal_consumption.1 clarify_state trans_ctl rfl rfl rfl⟩,
    c7_signal_consumption.2.1 demo_basic1 ⟨false, ""⟩,
    ⟨rfl, (c7_signal_consumption.2.2 clarify_state stop_ctl rfl).1,
      (c7_signal_consumption.2.2 clarify_state stop_ctl rfl).2⟩⟩

/-- A finalized step used by the C8 scenario. -/
def c8_step : WorkflowStep :=
  { step_number := 1
    action := "USER_OPENED_MENU"
    motivation := "navigate to settings"
    ui_elements := ["menu"]
    timestamp := "t"
    screenshot_path := "shot1"
    confidence_score := q0_9 }

/-- A state entering the refinement node with one finalized step. -/
def c8_state : WorkflowState :=
  { session_id := "sess"
    screenshots := ["shot1"]
    steps := [c8_step]
    current_step := 1
    analysis_complete := false
    needs_human_input := true
    human_question := "enhancement_refinement"
    continue_workflow := false
    phase := "enhancement"
    enhancement_complete := false }

/-- Refinement oracle inputs: one question, one non-empty answer, and a
failing synthesis call. -/
def c8_env : RefinementEnv :=
  { question_gen := some ["What was the overall goal?"]
    answers := ["Produce the monthly report"]
    synthesis := none
    created_at := "c"
    enhanced_at := "e" }

/-- C8 counterexample: with one refinement question answered and the
enhancement-synthesis call failing, the node still writes the
`workflow_enhanced.json` artifact — it is not left absent — and its content
is the original, unenhanced step sequence. -/
theorem c8_counterexample :
    (enhancement_refinement_node c8_state c8_env).2 =
      some ("workflow_enhanced.json",
        { session_id := "sess"
          created_at := "c"
          steps := StepsField.original [c8_step]
          enhanced_at := none
          enhancement_context := none }) ∧
    (enhancement_refinement_node c8_state c8_env).2 ≠ none := by decide

/-- C8 amended: when the enhancement-synthesis call fails during refinement
(after at least one non-empty answer was collected), the failure path still
writes the enhancement artifact — under its own distinct name, never the
capture artifact's — and the written content is exactly the original
unenhanced step sequence with no enhancement metadata; the original capture
artifact is not written by this node. -/
theorem c8_synthesis_failure_writes_original (st : WorkflowState)
    (env : RefinementEnv) (questions : List String)
    (hn : st.needs_human_input = true)
    (hq : st.human_question = "enhancement_refinement")
    (hqs : env.question_gen = some questions)
    (hne : questions.isEmpty = false)
    (hresp : (((env.answers.take questions.length).map py_strip).filter
        (fun r => !r.isEmpty)).isEmpty = false)
    (hsynth : env.synthesis = none) :
    (enhancement_refinement_node st env).2 =
      some ("workflow_enhanced.json",
        { session_id := st.session_id
          created_at := env.created_at
          steps := StepsField.original st.steps
          enhanced_at := none
          enhancement_context := none }) ∧
    "workflow_enhanced.json" ≠ "workflow.json" := by
  constructor
  · simp at hresp
    simp [enhancement_refinement_node, hn, hq, hqs, hne, hresp, hsynth,
      enhance_workflow_with_context]
  · decide

/-- Witness for C8 at the concrete one-question scenario. -/
theorem c8_synthesis_failure_writes_original_witness :
    (c8_state.needs_human_input = true ∧
      c8_state.human_question = "enhancement_refinement" ∧
      c8_env.question_gen = some ["What was the overall goal?"] ∧
      (["What was the overall goal?"] : List String).isEmpty = false ∧
      (((c8_env.answers.take
          (["What was the overall goal?"] : List String).length).map py_strip).filter
        (fun r => !r.isEmpty)).isEmpty = false ∧
      c8_env.synthesis = none) ∧
    ((enhancement_refinement_node c8_state c8_env).2 =
      some ("workflow_enhanced.json",
        { session_id := c8_state.session_id
          created_at := c8_env.created_at
          steps := StepsField.original c8_state.steps
          enhanced_at := none
          enhancement_context := none }) ∧
      "workflow_enhanced.json" ≠ "workflow.json") :=
  ⟨⟨rfl, rfl, rfl, by decide, by decide, rfl⟩,
    c8_synthesis_failure_writes_original c8_state c8_env
      ["What was the overall goal?"] rfl rfl rfl (by decide) (by decide) rfl⟩

/-- C9: every finalized step in any reachable configuration has a
confidence score in {0.4, 0.5, 0.7, 0.9, 1.0}; in particular the 0.0 of the
analysis-error response never appears in a finalized step. -/
theorem c9_finalized_scores {sid : String} {s : Sys} (h : Reachable sid s) :
    ∀ stp ∈ s.st.steps,
      stp.confidence_score ∈ valid_scores ∧ stp.confidence_score ≠ 0 := by
  intro stp hstp
  have hm := (reachable_inv h).scores stp hstp
  refine ⟨hm, ?_⟩
  simp only [valid_scores, List.mem_cons, List.not_mem_nil, or_false] at hm
  rcases hm with h1 | h1 | h1 | h1 | h1 <;> rw [h1] <;> decide

/-- Witness for C9 at the concrete demo run, whose two finalized steps have
scores 0.9 (automated, certainty "high") and 1.0 (human-confirmed). -/
theorem c9_finalized_scores_witness :
    demo8.st.steps.map (fun stp => stp.confidence_score) = [q0_9, 1] ∧
    ∀ stp ∈ demo8.st.steps,
      stp.confidence_score ∈ valid_scores ∧ stp.confidence_score ≠ 0 :=
  ⟨by decide, fun stp hstp => c9_finalized_scores demo_reachable stp hstp⟩

/-- C10: if `ForceHumanInput` is set and the first analysis call fails on
that cycle, the flag is not consumed (the flag test happens only after a
successful first response) while the error path still requests
clarification; on the next cycle with a successful response the still-set
flag forces clarification and only then is cleared. -/
theorem c10_force_flag_survives_failure :
    (∀ errQ : Option String,
      (analyze_screenshot true (AnalyzeOutcome.fail1 errQ)).2 = true ∧
      (analyze_screenshot true (AnalyzeOutcome.fail1 errQ)).1.needs_clarification =
        true) ∧
    (∀ (basic : BasicAnalysis) (clar : ClarificationAnalysis),
      (analyze_screenshot true (AnalyzeOutcome.ok basic clar)).1.needs_clarification =
        true ∧
      (analyze_screenshot true (AnalyzeOutcome.ok basic clar)).2 = false) :=
  ⟨fun _ => ⟨rfl, rfl⟩, fun _ _ => ⟨rfl, rfl⟩⟩

end WorkflowAgentModel
